import Mathlib

/-!
Verification of the azure-orphan-detector classification pipeline
(azure_orphan_detector/core/detector.py, core/models.py and the
analyzers under azure_orphan_detector/analyzers/).

Python floats are modelled as rationals (ℚ), Python ints as ℤ.
Azure SDK objects are modelled by small structures carrying exactly the
attributes the analyzed code reads; string-containment tests on tag
dictionaries (`any(tag in str(resource.tags), ...)`) are modelled by a
boolean field recording the outcome of that test.
-/

/-- models.py `SeverityLevel`: an enum whose members carry string values. -/
inductive SeverityLevel where
  | CRITICAL
  | HIGH
  | MEDIUM
  | LOW
  | INFO
deriving DecidableEq

/-- The `.value` attribute of the `SeverityLevel` enum members (strings). -/
def SeverityLevel.value : SeverityLevel → String
  | .CRITICAL => "critical"
  | .HIGH => "high"
  | .MEDIUM => "medium"
  | .LOW => "low"
  | .INFO => "info"

/-- Python string `<` (lexicographic on code points), on lists of characters. -/
def pyStrLtAux : List Char → List Char → Bool
  | [], [] => false
  | [], _ :: _ => true
  | _ :: _, [] => false
  | a :: as, b :: bs =>
      if a.val < b.val then true
      else if b.val < a.val then false
      else pyStrLtAux as bs

/-- Python string `<` as used by `base_severity.value < SeverityLevel.HIGH.value`. -/
def pyStrLt (a b : String) : Bool := pyStrLtAux a.data b.data

/-- models.py `UsageAnalysis` (the fields the pipeline reads). -/
structure UsageAnalysis where
  has_recent_activity : Bool
  activity_score : ℚ
deriving DecidableEq

/-- models.py `BackupPolicyAnalysis` (the pipeline only reads `risk_level`). -/
structure BackupPolicyAnalysis where
  risk_level : String
deriving DecidableEq

/-- models.py `ResourceMetrics` (the pipeline only reads `usage_analysis`). -/
structure ResourceMetrics where
  usage_analysis : Option UsageAnalysis
deriving DecidableEq

/-- models.py `CostAnalysis` (the pipeline only reads `current_monthly_cost`). -/
structure CostAnalysis where
  current_monthly_cost : ℚ
deriving DecidableEq

/-- models.py `SecurityAnalysis` (fields read by severity functions). -/
structure SecurityAnalysis where
  network_exposure : String
  security_risks : List String
deriving DecidableEq

/-- models.py `ScanConfiguration` (the fields the pipeline reads). -/
structure ScanConfiguration where
  cost_threshold_critical : ℚ
  cost_threshold_high : ℚ
  cost_threshold_medium : ℚ
  confidence_threshold : ℚ
  include_low_confidence : Bool
  max_age_days : ℤ
  excluded_resource_groups : List String
  excluded_tags : List (String × List String)
deriving DecidableEq

/-- The dataclass defaults of `ScanConfiguration` in models.py. -/
def default_scan_configuration : ScanConfiguration where
  cost_threshold_critical := 100
  cost_threshold_high := 50
  cost_threshold_medium := 10
  confidence_threshold := 7/10
  include_low_confidence := false
  max_age_days := 90
  excluded_resource_groups := []
  excluded_tags := []

/-- models.py `EnhancedOrphanedResource` (the fields the pipeline reads).
`metrics` and `backup_analysis` default to fresh objects in the dataclass
(`usage_analysis = None`, `risk_level = "unknown"`), never `None`, so they
are modelled as plain fields. -/
structure EnhancedOrphanedResource where
  resource_name : String
  resource_group : String
  subscription_id : String
  cost_analysis : CostAnalysis
  metrics : ResourceMetrics
  backup_analysis : BackupPolicyAnalysis
  severity : SeverityLevel
  confidence_score : ℚ
  tags : List (String × String)
  cleanup_priority : ℤ
deriving DecidableEq

/-- The `severity_adjustments` dict shared verbatim by
DiskAnalyzer, PublicIPAnalyzer and StorageAccountAnalyzer
`_calculate_cleanup_priority`; `.get(severity, 0)` is total here since
every member is a key. -/
def severity_adjustments : SeverityLevel → ℤ
  | .CRITICAL => -2
  | .HIGH => -1
  | .MEDIUM => 0
  | .LOW => 1
  | .INFO => 2

namespace DiskAnalyzer

/-- A disk or snapshot as read by disk_analyzer.py confidence scoring:
`days_old` is `(now - time_created).days` when `time_created` is set,
`has_temp_tag` is the outcome of the temp-keyword containment test on
`str(resource.tags)` (false when the resource has no tags). -/
structure DiskResource where
  days_old : Option ℤ
  has_temp_tag : Bool
deriving DecidableEq

/-- disk_analyzer.py `DiskAnalyzer._calculate_confidence_score`. -/
def calculate_confidence_score (resource : DiskResource) : ℚ :=
  let score : ℚ := 1/2
  let score := score +
    match resource.days_old with
    | some days_old => if days_old > 90 then 2/10 else if days_old > 30 then 1/10 else 0
    | none => 0
  let score := score + (if resource.has_temp_tag then 1/10 else 0)
  min 1 (max 0 score)

/-- disk_analyzer.py `DiskAnalyzer._calculate_enhanced_confidence_score`. -/
def calculate_enhanced_confidence_score (resource : DiskResource)
    (usage_analysis : Option UsageAnalysis)
    (backup_analysis : Option BackupPolicyAnalysis) : ℚ :=
  let score := calculate_confidence_score resource
  let score :=
    match usage_analysis with
    | some u => if !u.has_recent_activity then score + 2/10 else score - u.activity_score * (3/10)
    | none => score
  let score :=
    match backup_analysis with
    | some b =>
        if b.risk_level == "critical" then 1/10
        else if b.risk_level == "high" then score * (1/2)
        else if b.risk_level == "medium" then score * (7/10)
        else if b.risk_level == "low" then score + 1/10
        else score
    | none => score
  min 1 (max 0 score)

/-- disk_analyzer.py `DiskAnalyzer._determine_severity` (cost thresholds). -/
def determine_severity (cost_analysis : CostAnalysis) (config : ScanConfiguration) : SeverityLevel :=
  let monthly_cost := cost_analysis.current_monthly_cost
  if monthly_cost > config.cost_threshold_critical then .CRITICAL
  else if monthly_cost > config.cost_threshold_high then .HIGH
  else if monthly_cost > config.cost_threshold_medium then .MEDIUM
  else if monthly_cost > 1 then .LOW
  else .INFO

/-- The downgrade step of disk_analyzer.py `_determine_enhanced_severity`:
`severity_order = [INFO, LOW, MEDIUM, HIGH, CRITICAL]`, step to
`severity_order[index - 1]` when `index > 0`. -/
def severity_order_step_down : SeverityLevel → SeverityLevel
  | .INFO => .INFO
  | .LOW => .INFO
  | .MEDIUM => .LOW
  | .HIGH => .MEDIUM
  | .CRITICAL => .HIGH

/-- disk_analyzer.py `DiskAnalyzer._determine_enhanced_severity`.
Note the source compares the enum members' *string* values:
`base_severity.value < SeverityLevel.HIGH.value` is a Python string
comparison, modelled by `pyStrLt`. -/
def determine_enhanced_severity (cost_analysis : CostAnalysis)
    (usage_analysis : Option UsageAnalysis)
    (backup_analysis : Option BackupPolicyAnalysis)
    (config : ScanConfiguration) : SeverityLevel :=
  let base_severity := determine_severity cost_analysis config
  let upgraded : Option SeverityLevel :=
    match backup_analysis with
    | some b =>
        if b.risk_level == "critical" then some .CRITICAL
        else if b.risk_level == "high" && pyStrLt base_severity.value SeverityLevel.HIGH.value then
          some .HIGH
        else none
    | none => none
  match upgraded with
  | some s => s
  | none =>
      match usage_analysis with
      | some u =>
          if u.has_recent_activity && u.activity_score > 1/2 then
            severity_order_step_down base_severity
          else base_severity
      | none => base_severity

/-- disk_analyzer.py `DiskAnalyzer._calculate_cleanup_priority`. -/
def calculate_cleanup_priority (cost_analysis : CostAnalysis)
    (severity : SeverityLevel) (confidence_score : ℚ) : ℤ :=
  let priority : ℤ := 5
  let monthly_cost := cost_analysis.current_monthly_cost
  let priority := priority +
    (if monthly_cost > 100 then -3
     else if monthly_cost > 50 then -2
     else if monthly_cost > 10 then -1
     else 0)
  let priority := priority + severity_adjustments severity
  let priority := priority +
    (if confidence_score > 8/10 then -1
     else if confidence_score < 1/2 then 1
     else 0)
  max 1 (min 10 priority)

/-- disk_analyzer.py `DiskAnalyzer._should_include_resource`. -/
def should_include_resource (resource : EnhancedOrphanedResource)
    (config : ScanConfiguration) : Bool :=
  if resource.confidence_score < config.confidence_threshold && !config.include_low_confidence then
    false
  else if resource.backup_analysis.risk_level == "critical" then
    false
  else
    match resource.metrics.usage_analysis with
    | some usage =>
        if usage.has_recent_activity && usage.activity_score > 3/10 then false else true
    | none => true

/-- disk_analyzer.py: input for one disk in `DiskAnalyzer.analyze`, bundling
the attributes the analyzer reads and the signals its collaborators
(cost calculator, usage analyzer, backup analyzer) return for it. -/
structure DiskInput where
  name : String
  resource_group : String
  managed_by : Bool
  managed_by_extended : Bool
  resource : DiskResource
  tags : List (String × String)
  cost_analysis : CostAnalysis
  usage_analysis : UsageAnalysis
  backup_analysis : BackupPolicyAnalysis
deriving DecidableEq

/-- disk_analyzer.py: input for one snapshot in `DiskAnalyzer.analyze`.
`age_days` is `(now - time_created)` in days (none when `time_created`
is unset). -/
structure SnapshotInput where
  name : String
  resource_group : String
  age_days : Option ℚ
  resource : DiskResource
  tags : List (String × String)
  cost_analysis : CostAnalysis
  backup_analysis : BackupPolicyAnalysis
deriving DecidableEq

/-- disk_analyzer.py `DiskAnalyzer._is_disk_orphaned`. -/
def is_disk_orphaned (disk : DiskInput) : Bool :=
  !disk.managed_by && !disk.managed_by_extended

/-- disk_analyzer.py `DiskAnalyzer._is_snapshot_orphaned_enhanced`:
age gate, then the backup-policy gate that refuses to flag snapshots whose
backup analysis is critical. -/
def is_snapshot_orphaned_enhanced (config : ScanConfiguration)
    (snapshot : SnapshotInput) : Bool :=
  match snapshot.age_days with
  | none => false
  | some age =>
      if age > (config.max_age_days : ℚ) then
        if snapshot.backup_analysis.risk_level == "critical" then false else true
      else false

/-- disk_analyzer.py `DiskAnalyzer._create_enhanced_orphaned_disk_resource`
(the non-exceptional path: all collaborator signals are available). -/
def create_enhanced_orphaned_disk_resource (subscription_id : String)
    (config : ScanConfiguration) (disk : DiskInput) : EnhancedOrphanedResource :=
  let confidence_score :=
    calculate_enhanced_confidence_score disk.resource (some disk.usage_analysis)
      (some disk.backup_analysis)
  let severity :=
    determine_enhanced_severity disk.cost_analysis (some disk.usage_analysis)
      (some disk.backup_analysis) config
  { resource_name := disk.name
    resource_group := disk.resource_group
    subscription_id := subscription_id
    cost_analysis := disk.cost_analysis
    metrics := { usage_analysis := some disk.usage_analysis }
    backup_analysis := disk.backup_analysis
    severity := severity
    confidence_score := confidence_score
    tags := disk.tags
    cleanup_priority := calculate_cleanup_priority disk.cost_analysis severity confidence_score }

/-- disk_analyzer.py `DiskAnalyzer._create_enhanced_orphaned_snapshot_resource`
(the non-exceptional path); usage analysis is passed as `None` and the
dataclass default `ResourceMetrics()` carries no usage analysis. -/
def create_enhanced_orphaned_snapshot_resource (subscription_id : String)
    (config : ScanConfiguration) (snapshot : SnapshotInput) : EnhancedOrphanedResource :=
  let confidence_score :=
    calculate_enhanced_confidence_score snapshot.resource none (some snapshot.backup_analysis)
  let severity :=
    determine_enhanced_severity snapshot.cost_analysis none (some snapshot.backup_analysis) config
  { resource_name := snapshot.name
    resource_group := snapshot.resource_group
    subscription_id := subscription_id
    cost_analysis := snapshot.cost_analysis
    metrics := { usage_analysis := none }
    backup_analysis := snapshot.backup_analysis
    severity := severity
    confidence_score := confidence_score
    tags := snapshot.tags
    cleanup_priority := calculate_cleanup_priority snapshot.cost_analysis severity confidence_score }

/-- disk_analyzer.py `DiskAnalyzer.analyze`: flag orphaned disks and
snapshots, build the enhanced resource for each, and keep those passing
`_should_include_resource`. -/
def analyze (config : ScanConfiguration) (subscription_id : String)
    (disks : List DiskInput) (snapshots : List SnapshotInput) :
    List EnhancedOrphanedResource :=
  (((disks.filter fun d => is_disk_orphaned d).map
      fun d => create_enhanced_orphaned_disk_resource subscription_id config d).filter
    fun r => should_include_resource r config)
  ++ (((snapshots.filter fun s => is_snapshot_orphaned_enhanced config s).map
        fun s => create_enhanced_orphaned_snapshot_resource subscription_id config s).filter
      fun r => should_include_resource r config)

end DiskAnalyzer

namespace PublicIPAnalyzer

/-- public_ip_analyzer.py: input for one public IP in `analyze`, bundling the
attributes the analyzer reads and the cost signal returned for it. -/
structure PipInput where
  name : String
  resource_group : String
  has_ip_configuration : Bool
  has_nat_gateway : Bool
  allocation_method : String
  has_temp_tag : Bool
  tags : List (String × String)
  cost_analysis : CostAnalysis
deriving DecidableEq

/-- public_ip_analyzer.py `PublicIPAnalyzer._is_public_ip_orphaned`. -/
def is_public_ip_orphaned (pip : PipInput) : Bool :=
  !pip.has_ip_configuration && !pip.has_nat_gateway

/-- public_ip_analyzer.py `PublicIPAnalyzer._calculate_confidence_score`. -/
def calculate_confidence_score (pip : PipInput) : ℚ :=
  let score : ℚ := 1/2
  let score := score + (if !pip.has_ip_configuration && !pip.has_nat_gateway then 3/10 else 0)
  let score := score + (if pip.has_temp_tag then 1/10 else 0)
  min 1 (max 0 score)

/-- The `SecurityAnalysis` built inside
`PublicIPAnalyzer._create_orphaned_public_ip_resource`: external exposure,
three unconditional risks, one more for static allocation. -/
def build_security_analysis (pip : PipInput) : SecurityAnalysis :=
  let security_risks :=
    ["Unused public IP may be discoverable and targeted",
     "IP address may be monitored by threat actors",
     "Potential for DNS hijacking if records exist"]
  let security_risks := security_risks ++
    (if pip.allocation_method == "Static" then ["Static IP maintains persistent attack surface"]
     else [])
  { network_exposure := "external", security_risks := security_risks }

/-- public_ip_analyzer.py `PublicIPAnalyzer._determine_severity`. -/
def determine_severity (cost_analysis : CostAnalysis)
    (security_analysis : SecurityAnalysis) (config : ScanConfiguration) : SeverityLevel :=
  let monthly_cost := cost_analysis.current_monthly_cost
  if !security_analysis.security_risks.isEmpty then .HIGH
  else if monthly_cost > config.cost_threshold_medium then .MEDIUM
  else .LOW

/-- public_ip_analyzer.py `PublicIPAnalyzer._calculate_cleanup_priority`.
Unlike the disk analyzer there is no cost tier above 50. -/
def calculate_cleanup_priority (cost_analysis : CostAnalysis)
    (severity : SeverityLevel) (confidence_score : ℚ) : ℤ :=
  let priority : ℤ := 5
  let monthly_cost := cost_analysis.current_monthly_cost
  let priority := priority +
    (if monthly_cost > 50 then -2
     else if monthly_cost > 10 then -1
     else 0)
  let priority := priority + severity_adjustments severity
  let priority := priority +
    (if confidence_score > 8/10 then -1
     else if confidence_score < 1/2 then 1
     else 0)
  max 1 (min 10 priority)

/-- public_ip_analyzer.py `PublicIPAnalyzer._create_orphaned_public_ip_resource`
(the non-exceptional path). The dataclass defaults fill `metrics`
(no usage analysis) and `backup_analysis` (`risk_level = "unknown"`). -/
def create_orphaned_public_ip_resource (subscription_id : String)
    (config : ScanConfiguration) (pip : PipInput) : EnhancedOrphanedResource :=
  let security_analysis := build_security_analysis pip
  let confidence_score := calculate_confidence_score pip
  let severity := determine_severity pip.cost_analysis security_analysis config
  { resource_name := pip.name
    resource_group := pip.resource_group
    subscription_id := subscription_id
    cost_analysis := pip.cost_analysis
    metrics := { usage_analysis := none }
    backup_analysis := { risk_level := "unknown" }
    severity := severity
    confidence_score := confidence_score
    tags := pip.tags
    cleanup_priority := calculate_cleanup_priority pip.cost_analysis severity confidence_score }

/-- public_ip_analyzer.py `PublicIPAnalyzer.analyze`: every orphaned public
IP yields a candidate, with no further filtering. -/
def analyze (config : ScanConfiguration) (subscription_id : String)
    (pips : List PipInput) : List EnhancedOrphanedResource :=
  (pips.filter fun p => is_public_ip_orphaned p).map
    fun p => create_orphaned_public_ip_resource subscription_id config p

end PublicIPAnalyzer

namespace StorageAccountAnalyzer

/-- storage_analyzer.py: input for one storage account in `analyze`.
`is_system_name` is the outcome of `_is_system_storage_account` (substring
test on the account name), `has_known_integrations` the outcome of
`_has_known_integrations` (substring tests on tags and name), `days_old`
is `(now - creation_time).days` when `creation_time` is set, `access_tier`
the attribute when present, `has_temp_tag` the temp-keyword containment
test on `str(tags)`, and the three `Option Bool` fields model optional
attributes (`none` = attribute absent). -/
structure StorageInput where
  name : String
  resource_group : String
  is_system_name : Bool
  has_known_integrations : Bool
  days_old : Option ℤ
  access_tier : Option String
  has_temp_tag : Bool
  tags : List (String × String)
  cost_analysis : CostAnalysis
  allow_blob_public_access : Option Bool
  enable_https_traffic_only : Option Bool
  encryption_has_services : Option Bool
deriving DecidableEq

/-- storage_analyzer.py `_analyze_storage_account`, reduced to the
`is_orphaned` outcome. When `creation_time` is missing or `None`, the
`days_old` name is unbound at the final age comparison, so the raised
`NameError` is caught and the default not-orphaned analysis is returned;
the same not-orphaned outcome results when the system-name or integration
checks return early. The `usage_score < 2` conjunct is always true since
the tier score is at most 1. -/
def storage_account_is_orphaned (config : ScanConfiguration)
    (account : StorageInput) : Bool :=
  match account.days_old with
  | none => false
  | some days_old =>
      if days_old < 7 then false
      else if account.is_system_name then false
      else if account.has_known_integrations then false
      else days_old > config.max_age_days

/-- storage_analyzer.py: whether `_analyze_storage_account` recorded any
`usage_indicators` (only the Archive and Cool access tiers do). -/
def usage_indicators_nonempty (account : StorageInput) : Bool :=
  match account.access_tier with
  | some tier => tier == "Archive" || tier == "Cool"
  | none => false

/-- storage_analyzer.py `StorageAccountAnalyzer._calculate_confidence_score`:
base 0.3, age and usage-indicator and temp-tag bonuses, system-name
penalty, clamped to [0.1, 0.9]. -/
def calculate_confidence_score (account : StorageInput) : ℚ :=
  let score : ℚ := 3/10
  let score := score +
    match account.days_old with
    | some days_old =>
        if days_old > 180 then 3/10
        else if days_old > 90 then 2/10
        else if days_old > 30 then 1/10
        else 0
    | none => 0
  let score := score + (if usage_indicators_nonempty account then 2/10 else 0)
  let score := score + (if account.has_temp_tag then 2/10 else 0)
  let score := score - (if account.is_system_name then 3/10 else 0)
  min (9/10) (max (1/10) score)

/-- The `SecurityAnalysis` built inside `_create_orphaned_storage_resource`:
public-access exposure and risk, https risk, three unconditional risks,
encryption-status risk. -/
def build_security_analysis (account : StorageInput) : SecurityAnalysis :=
  let network_exposure :=
    match account.allow_blob_public_access with
    | some true => "external"
    | some false => "internal"
    | none => "none"
  let security_risks :=
    (match account.allow_blob_public_access with
     | some true => ["Public blob access is enabled"]
     | _ => [])
    ++ (match account.enable_https_traffic_only with
        | some false => ["HTTPS-only traffic is not enforced"]
        | _ => [])
    ++ ["Unused storage account may contain sensitive data",
        "Account keys may be stored in applications or scripts",
        "Potential for data exfiltration if compromised"]
    ++ (match account.encryption_has_services with
        | some false => ["Encryption status unclear"]
        | _ => [])
  { network_exposure := network_exposure, security_risks := security_risks }

/-- storage_analyzer.py `StorageAccountAnalyzer._determine_severity`. -/
def determine_severity (cost_analysis : CostAnalysis)
    (security_analysis : SecurityAnalysis) (config : ScanConfiguration) : SeverityLevel :=
  let monthly_cost := cost_analysis.current_monthly_cost
  if security_analysis.network_exposure == "external" then .HIGH
  else if monthly_cost > config.cost_threshold_critical then .CRITICAL
  else if monthly_cost > config.cost_threshold_high then .HIGH
  else if monthly_cost > config.cost_threshold_medium then .MEDIUM
  else if security_analysis.security_risks.length > 3 then .MEDIUM
  else .LOW

/-- storage_analyzer.py `StorageAccountAnalyzer._calculate_cleanup_priority`:
base 6, cost tiers -2 above 100 and -1 above 50, low-confidence cutoff 0.4
with bonus +2, clamped to [2, 10]. -/
def calculate_cleanup_priority (cost_analysis : CostAnalysis)
    (severity : SeverityLevel) (confidence_score : ℚ) : ℤ :=
  let priority : ℤ := 6
  let monthly_cost := cost_analysis.current_monthly_cost
  let priority := priority +
    (if monthly_cost > 100 then -2
     else if monthly_cost > 50 then -1
     else 0)
  let priority := priority + severity_adjustments severity
  let priority := priority +
    (if confidence_score > 8/10 then -1
     else if confidence_score < 4/10 then 2
     else 0)
  max 2 (min 10 priority)

/-- storage_analyzer.py `_create_orphaned_storage_resource` (the
non-exceptional path). Dataclass defaults fill `metrics` and
`backup_analysis`. -/
def create_orphaned_storage_resource (subscription_id : String)
    (config : ScanConfiguration) (account : StorageInput) : EnhancedOrphanedResource :=
  let security_analysis := build_security_analysis account
  let confidence_score := calculate_confidence_score account
  let severity := determine_severity account.cost_analysis security_analysis config
  { resource_name := account.name
    resource_group := account.resource_group
    subscription_id := subscription_id
    cost_analysis := account.cost_analysis
    metrics := { usage_analysis := none }
    backup_analysis := { risk_level := "unknown" }
    severity := severity
    confidence_score := confidence_score
    tags := account.tags
    cleanup_priority := calculate_cleanup_priority account.cost_analysis severity confidence_score }

/-- storage_analyzer.py `StorageAccountAnalyzer.analyze`. -/
def analyze (config : ScanConfiguration) (subscription_id : String)
    (accounts : List StorageInput) : List EnhancedOrphanedResource :=
  (accounts.filter fun a => storage_account_is_orphaned config a).map
    fun a => create_orphaned_storage_resource subscription_id config a

end StorageAccountAnalyzer

/-- Insertion step of the stable sort modelling Python `list.sort(key=...)`:
insert `x` before the first element it compares at-most-equal to. -/
def insertLe {α : Type} (le : α → α → Bool) (x : α) : List α → List α
  | [] => [x]
  | y :: ys => if le x y then x :: y :: ys else y :: insertLe le x ys

/-- Stable insertion sort modelling Python `list.sort(key=...)`. -/
def sortLe {α : Type} (le : α → α → Bool) : List α → List α
  | [] => []
  | x :: xs => insertLe le x (sortLe le xs)

/-- Adjacent-pairs sortedness check for a boolean comparison. -/
def sortedBy {α : Type} (le : α → α → Bool) : List α → Bool
  | [] => true
  | [_] => true
  | a :: b :: rest => le a b && sortedBy le (b :: rest)

namespace OrphanDetector

/-- The sort key of detector.py `_post_process_resources`:
`key=lambda x: (x.cleanup_priority, -x.cost_analysis.current_monthly_cost)`,
compared as a Python tuple (lexicographically). -/
def resource_sort_le (a b : EnhancedOrphanedResource) : Bool :=
  decide (a.cleanup_priority < b.cleanup_priority) ||
    (decide (a.cleanup_priority = b.cleanup_priority) &&
      decide (b.cost_analysis.current_monthly_cost ≤ a.cost_analysis.current_monthly_cost))

/-- detector.py `OrphanDetector._should_include_resource`: confidence
threshold, excluded resource groups, excluded tags (an empty value list
matches any value). -/
def should_include_resource (config : ScanConfiguration)
    (resource : EnhancedOrphanedResource) : Bool :=
  if !config.include_low_confidence &&
      decide (resource.confidence_score < config.confidence_threshold) then
    false
  else if config.excluded_resource_groups.contains resource.resource_group then
    false
  else if config.excluded_tags.any fun tag_rule =>
      match resource.tags.lookup tag_rule.1 with
      | some v => tag_rule.2.isEmpty || tag_rule.2.contains v
      | none => false then
    false
  else true

/-- detector.py `OrphanDetector._post_process_resources`: filter with
`_should_include_resource` (enrichment touches only display fields not
modelled here), then sort by `(cleanup_priority, -current_monthly_cost)`. -/
def post_process_resources (config : ScanConfiguration)
    (resources : List EnhancedOrphanedResource) : List EnhancedOrphanedResource :=
  sortLe resource_sort_le (resources.filter fun r => should_include_resource config r)

/-- The per-subscription resource listings consumed by the enabled
analyzers (detector.py registers `DiskAnalyzer` and `PublicIPAnalyzer`). -/
structure SubscriptionData where
  disks : List DiskAnalyzer.DiskInput
  snapshots : List DiskAnalyzer.SnapshotInput
  public_ips : List PublicIPAnalyzer.PipInput
deriving DecidableEq

/-- One subscription to scan: its id, and either the listings its clients
return or the exception message raised while setting up / listing
(detector.py `_scan_single_subscription` re-raises those). -/
structure SubscriptionScan where
  subscription_id : String
  outcome : Except String SubscriptionData

/-- detector.py `_scan_single_subscription` (success path): run the enabled
analyzers in registry order and post-process their concatenated output. -/
def scan_single_subscription (config : ScanConfiguration)
    (subscription_id : String) (data : SubscriptionData) : List EnhancedOrphanedResource :=
  post_process_resources config
    (DiskAnalyzer.analyze config subscription_id data.disks data.snapshots
      ++ PublicIPAnalyzer.analyze config subscription_id data.public_ips)

/-- The `scan_subscription` closure inside detector.py `scan_subscriptions`:
a failing subscription contributes one error entry and no resources. -/
def scan_subscription_task (config : ScanConfiguration) (sub : SubscriptionScan) :
    List String × List EnhancedOrphanedResource :=
  match sub.outcome with
  | Except.ok data => ([], scan_single_subscription config sub.subscription_id data)
  | Except.error e => (["Subscription " ++ sub.subscription_id ++ ": " ++ e], [])

/-- models.py `ScanResult` (the fields the claims are about). -/
structure ScanResult where
  orphaned_resources : List EnhancedOrphanedResource
  total_monthly_savings : ℚ
  total_annual_savings : ℚ
  errors : List String
deriving DecidableEq

/-- detector.py `OrphanDetector.scan_subscriptions`: fan out over the
subscriptions, collect per-subscription results and errors, concatenate
the candidates and total their monthly costs. -/
def scan_subscriptions (config : ScanConfiguration)
    (subs : List SubscriptionScan) : ScanResult :=
  let results := subs.map (scan_subscription_task config)
  let all_orphaned_resources := (results.map fun r => r.2).flatten
  let errors := (results.map fun r => r.1).flatten
  let total_monthly_savings :=
    (all_orphaned_resources.map fun r => r.cost_analysis.current_monthly_cost).sum
  { orphaned_resources := all_orphaned_resources
    total_monthly_savings := total_monthly_savings
    total_annual_savings := total_monthly_savings * 12
    errors := errors }

end OrphanDetector

namespace DiskAnalyzer

/-- The enhanced scoring chain of disk_analyzer.py as a function of the
backup risk level, everything else held fixed: recompute confidence
(`_calculate_enhanced_confidence_score`), severity
(`_determine_enhanced_severity`) and cleanup priority
(`_calculate_cleanup_priority`). -/
def enhanced_priority_chain (resource : DiskResource) (cost_analysis : CostAnalysis)
    (usage_analysis : Option UsageAnalysis) (config : ScanConfiguration)
    (risk_level : String) : ℤ :=
  let confidence_score :=
    calculate_enhanced_confidence_score resource usage_analysis (some ⟨risk_level⟩)
  let severity :=
    determine_enhanced_severity cost_analysis usage_analysis (some ⟨risk_level⟩) config
  calculate_cleanup_priority cost_analysis severity confidence_score

end DiskAnalyzer

/-- The cleanup-priority formula asserted by the specification for every
analyzer variant (written from the claim's words, for comparison against
the analyzers' code): per-type baseline, cost tiers -3 / -2 / -1 at
>100 / >50 / >10, severity adjustment, -1 above confidence 0.8,
a low-confidence bonus below the variant's cutoff, clamp to [floor, 10]. -/
def claimed_cleanup_priority (baseline floor_value low_confidence_bonus : ℤ)
    (low_confidence_cutoff : ℚ) (monthly_cost : ℚ) (severity : SeverityLevel)
    (confidence_score : ℚ) : ℤ :=
  let priority := baseline +
    (if monthly_cost > 100 then -3
     else if monthly_cost > 50 then -2
     else if monthly_cost > 10 then -1
     else 0)
  let priority := priority + severity_adjustments severity
  let priority := priority +
    (if confidence_score > 8/10 then -1
     else if confidence_score < low_confidence_cutoff then low_confidence_bonus
     else 0)
  max floor_value (min 10 priority)

/-- The amended cleanup-priority formula: as claimed, but with the cost
adjustment supplied per variant (the analyzers do not share one tier
table). -/
def amended_cleanup_priority (baseline floor_value low_confidence_bonus : ℤ)
    (low_confidence_cutoff : ℚ) (cost_adjustment : ℤ) (severity : SeverityLevel)
    (confidence_score : ℚ) : ℤ :=
  let priority := baseline + cost_adjustment
  let priority := priority + severity_adjustments severity
  let priority := priority +
    (if confidence_score > 8/10 then -1
     else if confidence_score < low_confidence_cutoff then low_confidence_bonus
     else 0)
  max floor_value (min 10 priority)

/-- Cost tier table of disk_analyzer.py `_calculate_cleanup_priority`. -/
def disk_cost_adjustment (monthly_cost : ℚ) : ℤ :=
  if monthly_cost > 100 then -3
  else if monthly_cost > 50 then -2
  else if monthly_cost > 10 then -1
  else 0

/-- Cost tier table of public_ip_analyzer.py `_calculate_cleanup_priority`:
no tier above 100. -/
def public_ip_cost_adjustment (monthly_cost : ℚ) : ℤ :=
  if monthly_cost > 50 then -2
  else if monthly_cost > 10 then -1
  else 0

/-- Cost tier table of storage_analyzer.py `_calculate_cleanup_priority`:
-2 above 100 and -1 above 50, no tier above 10. -/
def storage_cost_adjustment (monthly_cost : ℚ) : ℤ :=
  if monthly_cost > 100 then -2
  else if monthly_cost > 50 then -1
  else 0

/-- The default configuration with `include_low_confidence` switched on,
used by the concrete scan examples below. -/
def example_configuration : ScanConfiguration :=
  { default_scan_configuration with include_low_confidence := true }

/-- An inactive usage signal used by the concrete examples. -/
def idle_usage : UsageAnalysis := { has_recent_activity := false, activity_score := 0 }

/-- Concrete example: a cheap orphaned disk ($5/month, confidence 0.7,
severity LOW, cleanup priority 6). -/
def disk_a : DiskAnalyzer.DiskInput :=
  { name := "disk-a"
    resource_group := "rg-a"
    managed_by := false
    managed_by_extended := false
    resource := { days_old := none, has_temp_tag := false }
    tags := []
    cost_analysis := ⟨5⟩
    usage_analysis := idle_usage
    backup_analysis := ⟨"unknown"⟩ }

/-- Concrete example: an expensive orphaned disk ($120/month, confidence
0.7, severity CRITICAL, cleanup priority 1). -/
def disk_b : DiskAnalyzer.DiskInput :=
  { name := "disk-b"
    resource_group := "rg-b"
    managed_by := false
    managed_by_extended := false
    resource := { days_old := none, has_temp_tag := false }
    tags := []
    cost_analysis := ⟨120⟩
    usage_analysis := idle_usage
    backup_analysis := ⟨"unknown"⟩ }

/-- Concrete example: an orphaned static public IP. -/
def pip_a : PublicIPAnalyzer.PipInput :=
  { name := "pip-a"
    resource_group := "rg-a"
    has_ip_configuration := false
    has_nat_gateway := false
    allocation_method := "Static"
    has_temp_tag := false
    tags := []
    cost_analysis := ⟨3⟩ }

/-- Concrete example: a subscription whose listing returns only `disk_a`. -/
def sub_a : OrphanDetector.SubscriptionScan :=
  { subscription_id := "sub-aaaa", outcome := Except.ok ⟨[disk_a], [], []⟩ }

/-- Concrete example: a subscription whose listing returns only `disk_b`. -/
def sub_b : OrphanDetector.SubscriptionScan :=
  { subscription_id := "sub-bbbb", outcome := Except.ok ⟨[disk_b], [], []⟩ }

/-- Concrete example: a subscription whose scan raises. -/
def sub_broken : OrphanDetector.SubscriptionScan :=
  { subscription_id := "sub-broken", outcome := Except.error "boom" }

/-- The candidate the disk analyzer produces for `disk_a`. -/
def candidate_a : EnhancedOrphanedResource :=
  DiskAnalyzer.create_enhanced_orphaned_disk_resource "sub-aaaa" example_configuration disk_a

/-- The candidate the disk analyzer produces for `disk_b`. -/
def candidate_b : EnhancedOrphanedResource :=
  DiskAnalyzer.create_enhanced_orphaned_disk_resource "sub-bbbb" example_configuration disk_b

/-! ## Helper lemmas -/

theorem mem_insertLe {α : Type} (le : α → α → Bool) (x : α) (l : List α) (r : α) :
    r ∈ insertLe le x l ↔ r = x ∨ r ∈ l := by
  induction l with
  | nil => simp [insertLe]
  | cons y ys ih =>
      by_cases h : le x y = true
      · simp [insertLe, h]
      · simp [insertLe, h, ih]
        tauto

theorem perm_insertLe {α : Type} (le : α → α → Bool) (x : α) (l : List α) :
    List.Perm (insertLe le x l) (x :: l) := by
  induction l with
  | nil => simp [insertLe]
  | cons y ys ih =>
      by_cases h : le x y = true
      · simp [insertLe, h]
      · simp only [insertLe, h]
        exact List.Perm.trans (List.Perm.cons y ih) (List.Perm.swap x y ys)

theorem perm_sortLe {α : Type} (le : α → α → Bool) (l : List α) :
    List.Perm (sortLe le l) l := by
  induction l with
  | nil => simp [sortLe]
  | cons x xs ih =>
      exact List.Perm.trans (perm_insertLe le x (sortLe le xs)) (List.Perm.cons x ih)

theorem mem_sortLe {α : Type} (le : α → α → Bool) (l : List α) (r : α) :
    r ∈ sortLe le l ↔ r ∈ l :=
  (perm_sortLe le l).mem_iff

theorem sortedBy_insertLe {α : Type} (le : α → α → Bool)
    (htotal : ∀ a b, le a b = true ∨ le b a = true)
    (x : α) (l : List α) (h : sortedBy le l = true) :
    sortedBy le (insertLe le x l) = true := by
  induction l with
  | nil => simp [insertLe, sortedBy]
  | cons y ys ih =>
      by_cases hxy : le x y = true
      · simpa [insertLe, hxy, sortedBy] using h
      · have hyx : le y x = true := (htotal x y).resolve_left hxy
        cases ys with
        | nil => simp [insertLe, hxy, sortedBy, hyx]
        | cons z zs =>
            have hys : sortedBy le (z :: zs) = true := by
              simp [sortedBy] at h
              exact h.2
            have hyz : le y z = true := by
              simp [sortedBy] at h
              exact h.1
            have hins := ih hys
            by_cases hxz : le x z = true
            · simp [insertLe, hxy, hxz, sortedBy, hyx] at hins ⊢
              exact hins
            · simp [insertLe, hxy, hxz, sortedBy, hyz] at hins ⊢
              exact hins

theorem sortedBy_sortLe {α : Type} (le : α → α → Bool)
    (htotal : ∀ a b, le a b = true ∨ le b a = true) (l : List α) :
    sortedBy le (sortLe le l) = true := by
  induction l with
  | nil => simp [sortLe, sortedBy]
  | cons x xs ih => exact sortedBy_insertLe le htotal x (sortLe le xs) ih

theorem resource_sort_le_total (a b : EnhancedOrphanedResource) :
    OrphanDetector.resource_sort_le a b = true ∨
      OrphanDetector.resource_sort_le b a = true := by
  unfold OrphanDetector.resource_sort_le
  rcases lt_trichotomy a.cleanup_priority b.cleanup_priority with h | h | h
  · left; simp [h]
  · rcases le_total b.cost_analysis.current_monthly_cost
      a.cost_analysis.current_monthly_cost with hc | hc
    · left; simp [h, hc]
    · right; simp [h.symm, hc]
  · right; simp [h]

/-- The Python string comparison `severity.value < "high"` is true exactly
for the member whose value is "critical". -/
theorem pyStrLt_value_high (s : SeverityLevel) :
    pyStrLt s.value SeverityLevel.HIGH.value = decide (s = SeverityLevel.CRITICAL) := by
  cases s <;> decide

/-! ## Claims -/

/-- C2: for every `ScanResult` produced by `scan_subscriptions`,
`total_monthly_savings` is the sum of `cost_analysis.current_monthly_cost`
over exactly the candidates present in `orphaned_resources`, and
`total_annual_savings` is `total_monthly_savings * 12`. -/
theorem scan_totals_are_sums_over_included_candidates
    (config : ScanConfiguration) (subs : List OrphanDetector.SubscriptionScan) :
    (OrphanDetector.scan_subscriptions config subs).total_monthly_savings =
      ((OrphanDetector.scan_subscriptions config subs).orphaned_resources.map
        fun r => r.cost_analysis.current_monthly_cost).sum
    ∧ (OrphanDetector.scan_subscriptions config subs).total_annual_savings =
      (OrphanDetector.scan_subscriptions config subs).total_monthly_savings * 12 :=
  ⟨rfl, rfl⟩

/-- C3 (code-bug evidence): `_determine_enhanced_severity` compares the
enum members' *string* values, so with the default thresholds a $150/month
cost has base severity CRITICAL yet a "high" backup risk *downgrades* it
to HIGH (`"critical" < "high"` lexicographically), while a $20/month cost
(base MEDIUM, strictly below HIGH in the intended order) is never raised
to HIGH (`"medium" < "high"` is false). -/
theorem determine_enhanced_severity_string_comparison_bug :
    DiskAnalyzer.determine_severity ⟨150⟩ default_scan_configuration =
      SeverityLevel.CRITICAL
    ∧ DiskAnalyzer.determine_enhanced_severity ⟨150⟩ none (some ⟨"high"⟩)
        default_scan_configuration = SeverityLevel.HIGH
    ∧ DiskAnalyzer.determine_enhanced_severity ⟨20⟩ none (some ⟨"high"⟩)
        default_scan_configuration = SeverityLevel.MEDIUM := by
  refine ⟨?_, ?_, ?_⟩ <;>
    norm_num [DiskAnalyzer.determine_severity, DiskAnalyzer.determine_enhanced_severity,
      default_scan_configuration, SeverityLevel.value, pyStrLt, pyStrLtAux] <;>
    decide

/-- C7 counterexample: at $150/month the public-IP analyzer subtracts only
2 (its top tier is `> 50`), not the claimed 3, so its priority for a HIGH
severity and confidence 0.7 is 2 while the claimed formula gives 1. -/
theorem claimed_priority_formula_fails_for_public_ip :
    PublicIPAnalyzer.calculate_cleanup_priority ⟨150⟩ SeverityLevel.HIGH (7/10) ≠
      claimed_cleanup_priority 5 1 1 (1/2) 150 SeverityLevel.HIGH (7/10) := by
  norm_num [PublicIPAnalyzer.calculate_cleanup_priority, claimed_cleanup_priority,
    severity_adjustments]

/-- C7 amended: each analyzer computes cleanup priority as baseline, plus
its own cost-tier adjustment (disks: -3 at >100, -2 at >50, -1 at >10;
public addresses: -2 at >50 and -1 at >10; storage: -2 at >100, -1 at >50),
plus the severity adjustment, -1 when confidence > 0.8, plus the variant's
low-confidence bonus (+1 below 0.5 for disks and addresses, +2 below 0.4
for storage), clamped to [1, 10] (disks, addresses) or [2, 10] (storage). -/
theorem cleanup_priority_matches_amended_formula :
    (∀ (cost : ℚ) (sev : SeverityLevel) (conf : ℚ),
      DiskAnalyzer.calculate_cleanup_priority ⟨cost⟩ sev conf =
        amended_cleanup_priority 5 1 1 (1/2) (disk_cost_adjustment cost) sev conf)
    ∧ (∀ (cost : ℚ) (sev : SeverityLevel) (conf : ℚ),
      PublicIPAnalyzer.calculate_cleanup_priority ⟨cost⟩ sev conf =
        amended_cleanup_priority 5 1 1 (1/2) (public_ip_cost_adjustment cost) sev conf)
    ∧ (∀ (cost : ℚ) (sev : SeverityLevel) (conf : ℚ),
      StorageAccountAnalyzer.calculate_cleanup_priority ⟨cost⟩ sev conf =
        amended_cleanup_priority 6 2 2 (4/10) (storage_cost_adjustment cost) sev conf) :=
  ⟨fun _ _ _ => rfl, fun _ _ _ => rfl, fun _ _ _ => rfl⟩

/-- A "critical" backup analysis forces the enhanced confidence to 0.1,
whatever the base confidence and usage adjustments were. -/
theorem enhanced_confidence_critical (resource : DiskAnalyzer.DiskResource)
    (usage_analysis : Option UsageAnalysis) :
    DiskAnalyzer.calculate_enhanced_confidence_score resource usage_analysis
      (some ⟨"critical"⟩) = 1/10 := by
  unfold DiskAnalyzer.calculate_enhanced_confidence_score
  norm_num

/-- A "critical" backup analysis forces the enhanced severity to CRITICAL. -/
theorem enhanced_severity_critical (cost_analysis : CostAnalysis)
    (usage_analysis : Option UsageAnalysis) (config : ScanConfiguration) :
    DiskAnalyzer.determine_enhanced_severity cost_analysis usage_analysis
      (some ⟨"critical"⟩) config = SeverityLevel.CRITICAL := by
  unfold DiskAnalyzer.determine_enhanced_severity
  simp

/-- The disk cleanup priority at forced severity CRITICAL and forced
confidence 0.1 exceeds the priority at any other severity/confidence by
at most 2. -/
theorem cleanup_priority_critical_gap (cost_analysis : CostAnalysis)
    (sev : SeverityLevel) (conf : ℚ) :
    DiskAnalyzer.calculate_cleanup_priority cost_analysis SeverityLevel.CRITICAL (1/10) ≤
      DiskAnalyzer.calculate_cleanup_priority cost_analysis sev conf + 2 := by
  unfold DiskAnalyzer.calculate_cleanup_priority
  have h1 : -2 ≤ severity_adjustments sev := by
    cases sev <;> norm_num [severity_adjustments]
  generalize severity_adjustments sev = s at h1 ⊢
  norm_num [severity_adjustments]
  split_ifs <;> omega

/-- C5 counterexample: for a 120-day-old untagged disk costing $60/month
with an inactive usage signal and the default thresholds, backup risk
"low" yields confidence 1.0, severity HIGH and priority 1, while backup
risk "critical" forces confidence 0.1 and severity CRITICAL, yielding
priority 2 — raising the risk *increases* the cleanup-priority number. -/
theorem enhanced_priority_chain_not_monotone :
    DiskAnalyzer.enhanced_priority_chain ⟨some 120, false⟩ ⟨60⟩ (some idle_usage)
        default_scan_configuration "critical" >
      DiskAnalyzer.enhanced_priority_chain ⟨some 120, false⟩ ⟨60⟩ (some idle_usage)
        default_scan_configuration "low" := by
  simp only [DiskAnalyzer.enhanced_priority_chain, DiskAnalyzer.calculate_cleanup_priority,
    DiskAnalyzer.calculate_enhanced_confidence_score, DiskAnalyzer.calculate_confidence_score,
    DiskAnalyzer.determine_enhanced_severity, DiskAnalyzer.determine_severity,
    DiskAnalyzer.severity_order_step_down, SeverityLevel.value, pyStrLt, pyStrLtAux,
    default_scan_configuration, idle_usage, severity_adjustments]
  simp
  norm_num

/-- C5 amended: for every resource, cost analysis and usage analysis held
fixed, changing the backup risk level from "low" to "critical" changes
the recomputed cleanup-priority number by at most +2 (strict monotonicity
fails, as the counterexample shows, but the drift is bounded). -/
theorem enhanced_priority_chain_critical_gap_le_two
    (resource : DiskAnalyzer.DiskResource) (cost_analysis : CostAnalysis)
    (usage_analysis : Option UsageAnalysis) (config : ScanConfiguration) :
    DiskAnalyzer.enhanced_priority_chain resource cost_analysis usage_analysis config
        "critical" ≤
      DiskAnalyzer.enhanced_priority_chain resource cost_analysis usage_analysis config
        "low" + 2 := by
  unfold DiskAnalyzer.enhanced_priority_chain
  rw [enhanced_confidence_critical, enhanced_severity_critical]
  exact cleanup_priority_critical_gap cost_analysis _ _

/-- C9: every candidate returned by `PublicIPAnalyzer.analyze` has severity
HIGH — the analyzer always appends security risks, and its severity
function returns HIGH whenever the risk list is non-empty, making the
cost branches unreachable. -/
theorem public_ip_candidates_always_high
    (config : ScanConfiguration) (subscription_id : String)
    (pips : List PublicIPAnalyzer.PipInput) (r : EnhancedOrphanedResource)
    (h : r ∈ PublicIPAnalyzer.analyze config subscription_id pips) :
    r.severity = SeverityLevel.HIGH := by
  unfold PublicIPAnalyzer.analyze at h
  rw [List.mem_map] at h
  obtain ⟨p, hp, rfl⟩ := h
  unfold PublicIPAnalyzer.create_orphaned_public_ip_resource
    PublicIPAnalyzer.determine_severity PublicIPAnalyzer.build_security_analysis
  simp

/-- C9 witness: the concrete orphaned public IP `pip_a` is a candidate and
its severity is HIGH. -/
theorem public_ip_candidates_always_high_witness :
    PublicIPAnalyzer.create_orphaned_public_ip_resource "sub-aaaa" example_configuration pip_a ∈
      PublicIPAnalyzer.analyze example_configuration "sub-aaaa" [pip_a]
    ∧ (PublicIPAnalyzer.create_orphaned_public_ip_resource "sub-aaaa" example_configuration
        pip_a).severity = SeverityLevel.HIGH :=
  have hmem : PublicIPAnalyzer.create_orphaned_public_ip_resource "sub-aaaa"
      example_configuration pip_a ∈
        PublicIPAnalyzer.analyze example_configuration "sub-aaaa" [pip_a] := by
    simp [PublicIPAnalyzer.analyze, PublicIPAnalyzer.is_public_ip_orphaned, pip_a,
      List.filter]
  ⟨hmem, public_ip_candidates_always_high example_configuration "sub-aaaa" [pip_a] _ hmem⟩

/-- `DiskAnalyzer._should_include_resource` never accepts a resource whose
usage analysis shows recent activity above score 0.3. -/
theorem should_include_no_recent_activity (r : EnhancedOrphanedResource)
    (config : ScanConfiguration) (u : UsageAnalysis)
    (hinc : DiskAnalyzer.should_include_resource r config = true)
    (hu : r.metrics.usage_analysis = some u) :
    ¬(u.has_recent_activity = true ∧ u.activity_score > 3/10) := by
  rintro ⟨ha, hs⟩
  unfold DiskAnalyzer.should_include_resource at hinc
  rw [hu] at hinc
  simp [ha, hs] at hinc

/-- `DiskAnalyzer._should_include_resource` never accepts a resource whose
backup analysis has critical risk. -/
theorem should_include_not_critical (r : EnhancedOrphanedResource)
    (config : ScanConfiguration)
    (hinc : DiskAnalyzer.should_include_resource r config = true) :
    r.backup_analysis.risk_level ≠ "critical" := by
  intro hc
  unfold DiskAnalyzer.should_include_resource at hinc
  rw [hc] at hinc
  simp at hinc

/-- C10: `DiskAnalyzer.analyze` never returns a candidate whose usage
analysis has recent activity with activity score above 0.3 — the
analyzer's own inclusion filter drops such resources. -/
theorem disk_candidates_not_recently_active
    (config : ScanConfiguration) (subscription_id : String)
    (disks : List DiskAnalyzer.DiskInput) (snapshots : List DiskAnalyzer.SnapshotInput)
    (r : EnhancedOrphanedResource) (u : UsageAnalysis)
    (h : r ∈ DiskAnalyzer.analyze config subscription_id disks snapshots)
    (hu : r.metrics.usage_analysis = some u) :
    ¬(u.has_recent_activity = true ∧ u.activity_score > 3/10) := by
  unfold DiskAnalyzer.analyze at h
  rw [List.mem_append] at h
  rcases h with h | h <;>
    · rw [List.mem_filter] at h
      exact should_include_no_recent_activity r config u h.2 hu

/-- Membership in a finished scan traces back to one subscription's task. -/
theorem mem_scan_subscriptions (config : ScanConfiguration)
    (subs : List OrphanDetector.SubscriptionScan) (r : EnhancedOrphanedResource) :
    r ∈ (OrphanDetector.scan_subscriptions config subs).orphaned_resources ↔
      ∃ sub ∈ subs, r ∈ (OrphanDetector.scan_subscription_task config sub).2 := by
  unfold OrphanDetector.scan_subscriptions
  simp [List.mem_flatten]

/-- Membership in one subscription's task traces back to the analyzers'
concatenated output, with the detector-level inclusion filter passed. -/
theorem mem_scan_subscription_task (config : ScanConfiguration)
    (sub : OrphanDetector.SubscriptionScan) (r : EnhancedOrphanedResource)
    (h : r ∈ (OrphanDetector.scan_subscription_task config sub).2) :
    ∃ data, sub.outcome = Except.ok data ∧
      OrphanDetector.should_include_resource config r = true ∧
      r ∈ DiskAnalyzer.analyze config sub.subscription_id data.disks data.snapshots
            ++ PublicIPAnalyzer.analyze config sub.subscription_id data.public_ips := by
  unfold OrphanDetector.scan_subscription_task at h
  cases houtcome : sub.outcome with
  | ok data =>
      rw [houtcome] at h
      simp only at h
      unfold OrphanDetector.scan_single_subscription
        OrphanDetector.post_process_resources at h
      rw [mem_sortLe, List.mem_filter] at h
      exact ⟨data, rfl, h.2, h.1⟩
  | error e =>
      rw [houtcome] at h
      simp at h

/-- C1: no candidate in a finished scan has a critical backup risk level;
the disk analyzer's inclusion filter drops them and the public-IP analyzer
builds candidates with the default "unknown" risk. -/
theorem scan_candidates_never_critical_backup (config : ScanConfiguration)
    (subs : List OrphanDetector.SubscriptionScan) (r : EnhancedOrphanedResource)
    (h : r ∈ (OrphanDetector.scan_subscriptions config subs).orphaned_resources) :
    r.backup_analysis.risk_level ≠ "critical" := by
  rw [mem_scan_subscriptions] at h
  obtain ⟨sub, _, htask⟩ := h
  obtain ⟨data, _, _, hmem⟩ := mem_scan_subscription_task config sub r htask
  rw [List.mem_append] at hmem
  rcases hmem with hmem | hmem
  · unfold DiskAnalyzer.analyze at hmem
    rw [List.mem_append] at hmem
    rcases hmem with hmem | hmem <;>
      · rw [List.mem_filter] at hmem
        exact should_include_not_critical r config hmem.2
  · unfold PublicIPAnalyzer.analyze at hmem
    rw [List.mem_map] at hmem
    obtain ⟨p, _, rfl⟩ := hmem
    unfold PublicIPAnalyzer.create_orphaned_public_ip_resource
    simp

/-- Clamping to `min 1 (max 0 _)` lands in [0, 1]. -/
theorem clamp01_bounds (x : ℚ) : 0 ≤ min 1 (max 0 x) ∧ min 1 (max 0 x) ≤ 1 :=
  ⟨le_min (by norm_num) (le_max_left 0 x), min_le_left 1 _⟩

/-- The storage-account confidence clamp `min 0.9 (max 0.1 _)` lands in
[0, 1]. -/
theorem clamp_storage_bounds (x : ℚ) :
    0 ≤ min (9/10) (max (1/10) x) ∧ min (9/10) (max (1/10) x) ≤ 1 :=
  ⟨le_min (by norm_num) (le_trans (by norm_num) (le_max_left _ x)),
    le_trans (min_le_left _ _) (by norm_num)⟩

/-- Clamping to `max f (min 10 _)` with `1 ≤ f ≤ 10` lands in [1, 10]. -/
theorem clamp_priority_bounds (floor_value : ℤ) (h1 : 1 ≤ floor_value)
    (h2 : floor_value ≤ 10) (x : ℤ) :
    1 ≤ max floor_value (min 10 x) ∧ max floor_value (min 10 x) ≤ 10 := by
  constructor <;> omega

/-- Bounds for disk candidates. -/
theorem create_disk_resource_bounds (subscription_id : String)
    (config : ScanConfiguration) (d : DiskAnalyzer.DiskInput) :
    0 ≤ (DiskAnalyzer.create_enhanced_orphaned_disk_resource subscription_id config
          d).confidence_score
    ∧ (DiskAnalyzer.create_enhanced_orphaned_disk_resource subscription_id config
        d).confidence_score ≤ 1
    ∧ 1 ≤ (DiskAnalyzer.create_enhanced_orphaned_disk_resource subscription_id config
          d).cleanup_priority
    ∧ (DiskAnalyzer.create_enhanced_orphaned_disk_resource subscription_id config
        d).cleanup_priority ≤ 10 := by
  unfold DiskAnalyzer.create_enhanced_orphaned_disk_resource
  refine ⟨?_, ?_, ?_, ?_⟩
  · exact (clamp01_bounds _).1
  · exact (clamp01_bounds _).2
  · exact (clamp_priority_bounds 1 (by norm_num) (by norm_num) _).1
  · exact (clamp_priority_bounds 1 (by norm_num) (by norm_num) _).2

/-- Bounds for snapshot candidates. -/
theorem create_snapshot_resource_bounds (subscription_id : String)
    (config : ScanConfiguration) (s : DiskAnalyzer.SnapshotInput) :
    0 ≤ (DiskAnalyzer.create_enhanced_orphaned_snapshot_resource subscription_id config
          s).confidence_score
    ∧ (DiskAnalyzer.create_enhanced_orphaned_snapshot_resource subscription_id config
        s).confidence_score ≤ 1
    ∧ 1 ≤ (DiskAnalyzer.create_enhanced_orphaned_snapshot_resource subscription_id config
          s).cleanup_priority
    ∧ (DiskAnalyzer.create_enhanced_orphaned_snapshot_resource subscription_id config
        s).cleanup_priority ≤ 10 := by
  unfold DiskAnalyzer.create_enhanced_orphaned_snapshot_resource
  refine ⟨?_, ?_, ?_, ?_⟩
  · exact (clamp01_bounds _).1
  · exact (clamp01_bounds _).2
  · exact (clamp_priority_bounds 1 (by norm_num) (by norm_num) _).1
  · exact (clamp_priority_bounds 1 (by norm_num) (by norm_num) _).2

/-- Bounds for public-IP candidates. -/
theorem create_public_ip_resource_bounds (subscription_id : String)
    (config : ScanConfiguration) (p : PublicIPAnalyzer.PipInput) :
    0 ≤ (PublicIPAnalyzer.create_orphaned_public_ip_resource subscription_id config
          p).confidence_score
    ∧ (PublicIPAnalyzer.create_orphaned_public_ip_resource subscription_id config
        p).confidence_score ≤ 1
    ∧ 1 ≤ (PublicIPAnalyzer.create_orphaned_public_ip_resource subscription_id config
          p).cleanup_priority
    ∧ (PublicIPAnalyzer.create_orphaned_public_ip_resource subscription_id config
        p).cleanup_priority ≤ 10 := by
  unfold PublicIPAnalyzer.create_orphaned_public_ip_resource
  refine ⟨?_, ?_, ?_, ?_⟩
  · exact (clamp01_bounds _).1
  · exact (clamp01_bounds _).2
  · exact (clamp_priority_bounds 1 (by norm_num) (by norm_num) _).1
  · exact (clamp_priority_bounds 1 (by norm_num) (by norm_num) _).2

/-- Bounds for storage-account candidates. -/
theorem create_storage_resource_bounds (subscription_id : String)
    (config : ScanConfiguration) (a : StorageAccountAnalyzer.StorageInput) :
    0 ≤ (StorageAccountAnalyzer.create_orphaned_storage_resource subscription_id config
          a).confidence_score
    ∧ (StorageAccountAnalyzer.create_orphaned_storage_resource subscription_id config
        a).confidence_score ≤ 1
    ∧ 1 ≤ (StorageAccountAnalyzer.create_orphaned_storage_resource subscription_id config
          a).cleanup_priority
    ∧ (StorageAccountAnalyzer.create_orphaned_storage_resource subscription_id config
        a).cleanup_priority ≤ 10 := by
  unfold StorageAccountAnalyzer.create_orphaned_storage_resource
  refine ⟨?_, ?_, ?_, ?_⟩
  · exact (clamp_storage_bounds _).1
  · exact (clamp_storage_bounds _).2
  · exact (clamp_priority_bounds 2 (by norm_num) (by norm_num) _).1
  · exact (clamp_priority_bounds 2 (by norm_num) (by norm_num) _).2

/-- C6: every candidate produced by any of the three analyzers satisfies
0 ≤ confidence_score ≤ 1 and 1 ≤ cleanup_priority ≤ 10, for all inputs,
signals and configurations. -/
theorem analyzer_candidate_bounds (config : ScanConfiguration)
    (subscription_id : String)
    (disks : List DiskAnalyzer.DiskInput) (snapshots : List DiskAnalyzer.SnapshotInput)
    (pips : List PublicIPAnalyzer.PipInput)
    (accounts : List StorageAccountAnalyzer.StorageInput)
    (r : EnhancedOrphanedResource)
    (h : r ∈ DiskAnalyzer.analyze config subscription_id disks snapshots
          ++ PublicIPAnalyzer.analyze config subscription_id pips
          ++ StorageAccountAnalyzer.analyze config subscription_id accounts) :
    0 ≤ r.confidence_score ∧ r.confidence_score ≤ 1
    ∧ 1 ≤ r.cleanup_priority ∧ r.cleanup_priority ≤ 10 := by
  rw [List.mem_append, List.mem_append] at h
  rcases h with (h | h) | h
  · unfold DiskAnalyzer.analyze at h
    rw [List.mem_append] at h
    rcases h with h | h <;> rw [List.mem_filter, List.mem_map] at h
    · obtain ⟨⟨d, _, rfl⟩, _⟩ := h
      exact create_disk_resource_bounds subscription_id config d
    · obtain ⟨⟨s, _, rfl⟩, _⟩ := h
      exact create_snapshot_resource_bounds subscription_id config s
  · unfold PublicIPAnalyzer.analyze at h
    rw [List.mem_map] at h
    obtain ⟨p, _, rfl⟩ := h
    exact create_public_ip_resource_bounds subscription_id config p
  · unfold StorageAccountAnalyzer.analyze at h
    rw [List.mem_map] at h
    obtain ⟨a, _, rfl⟩ := h
    exact create_storage_resource_bounds subscription_id config a

/-- C4 amended: the final candidate list is the concatenation of the
per-subscription results, and each subscription's contribution is sorted
by (cleanup_priority ascending, current_monthly_cost descending); the
concatenation itself is not re-sorted. -/
theorem scan_result_sorted_per_subscription (config : ScanConfiguration)
    (subs : List OrphanDetector.SubscriptionScan) :
    (OrphanDetector.scan_subscriptions config subs).orphaned_resources =
      (subs.map fun sub => (OrphanDetector.scan_subscription_task config sub).2).flatten
    ∧ ∀ sub : OrphanDetector.SubscriptionScan,
        sortedBy OrphanDetector.resource_sort_le
          (OrphanDetector.scan_subscription_task config sub).2 = true := by
  constructor
  · unfold OrphanDetector.scan_subscriptions
    simp [List.map_map]
    rfl
  · intro sub
    unfold OrphanDetector.scan_subscription_task
    cases houtcome : sub.outcome with
    | ok data =>
        unfold OrphanDetector.scan_single_subscription OrphanDetector.post_process_resources
        exact sortedBy_sortLe OrphanDetector.resource_sort_le resource_sort_le_total _
    | error e => rfl

/-- Evaluation: the disk analyzer's output for the listing `[disk_a]`. -/
theorem disk_analyze_eval_a :
    DiskAnalyzer.analyze example_configuration "sub-aaaa" [disk_a] [] = [candidate_a] := by
  simp [DiskAnalyzer.analyze, DiskAnalyzer.is_disk_orphaned,
    DiskAnalyzer.should_include_resource, candidate_a,
    DiskAnalyzer.create_enhanced_orphaned_disk_resource, disk_a, idle_usage, List.filter,
    example_configuration, default_scan_configuration]

/-- Evaluation: subscription `sub_a` contributes exactly `candidate_a`. -/
theorem scan_task_eval_a :
    (OrphanDetector.scan_subscription_task example_configuration sub_a).2 = [candidate_a] := by
  simp [OrphanDetector.scan_subscription_task, sub_a,
    OrphanDetector.scan_single_subscription, OrphanDetector.post_process_resources,
    OrphanDetector.should_include_resource, DiskAnalyzer.analyze, PublicIPAnalyzer.analyze,
    DiskAnalyzer.is_disk_orphaned, DiskAnalyzer.should_include_resource, candidate_a,
    DiskAnalyzer.create_enhanced_orphaned_disk_resource, disk_a, idle_usage, List.filter,
    sortLe, insertLe, example_configuration, default_scan_configuration]

/-- Evaluation: subscription `sub_b` contributes exactly `candidate_b`. -/
theorem scan_task_eval_b :
    (OrphanDetector.scan_subscription_task example_configuration sub_b).2 = [candidate_b] := by
  simp [OrphanDetector.scan_subscription_task, sub_b,
    OrphanDetector.scan_single_subscription, OrphanDetector.post_process_resources,
    OrphanDetector.should_include_resource, DiskAnalyzer.analyze, PublicIPAnalyzer.analyze,
    DiskAnalyzer.is_disk_orphaned, DiskAnalyzer.should_include_resource, candidate_b,
    DiskAnalyzer.create_enhanced_orphaned_disk_resource, disk_b, idle_usage, List.filter,
    sortLe, insertLe, example_configuration, default_scan_configuration]

/-- Evaluation: `candidate_a` has cleanup priority 6. -/
theorem candidate_a_priority : candidate_a.cleanup_priority = 6 := by
  simp only [candidate_a, DiskAnalyzer.create_enhanced_orphaned_disk_resource,
    DiskAnalyzer.calculate_cleanup_priority, DiskAnalyzer.calculate_enhanced_confidence_score,
    DiskAnalyzer.calculate_confidence_score, DiskAnalyzer.determine_enhanced_severity,
    DiskAnalyzer.determine_severity, DiskAnalyzer.severity_order_step_down,
    severity_adjustments, disk_a, idle_usage, example_configuration,
    default_scan_configuration]
  simp
  norm_num

/-- Evaluation: `candidate_b` has cleanup priority 1. -/
theorem candidate_b_priority : candidate_b.cleanup_priority = 1 := by
  simp only [candidate_b, DiskAnalyzer.create_enhanced_orphaned_disk_resource,
    DiskAnalyzer.calculate_cleanup_priority, DiskAnalyzer.calculate_enhanced_confidence_score,
    DiskAnalyzer.calculate_confidence_score, DiskAnalyzer.determine_enhanced_severity,
    DiskAnalyzer.determine_severity, DiskAnalyzer.severity_order_step_down,
    severity_adjustments, disk_b, idle_usage, example_configuration,
    default_scan_configuration]
  simp
  norm_num

/-- C4 counterexample: scanning two subscriptions — one holding only the
cheap disk `disk_a` (priority 6), one holding only the expensive disk
`disk_b` (priority 1) — produces a final list ordered (6, 1), which is
not sorted by ascending cleanup priority. -/
theorem scan_result_not_sorted_across_subscriptions :
    sortedBy OrphanDetector.resource_sort_le
      (OrphanDetector.scan_subscriptions example_configuration
        [sub_a, sub_b]).orphaned_resources = false := by
  show sortedBy OrphanDetector.resource_sort_le
      ((OrphanDetector.scan_subscription_task example_configuration sub_a).2 ++
        ((OrphanDetector.scan_subscription_task example_configuration sub_b).2 ++ [])) = false
  rw [scan_task_eval_a, scan_task_eval_b]
  simp [sortedBy, OrphanDetector.resource_sort_le, candidate_a_priority, candidate_b_priority]

/-- C8: a subscription whose scan raises contributes exactly one error
entry naming it and no candidates, while every other subscription's
candidates and errors are unaffected. -/
theorem scan_isolates_failing_subscription (config : ScanConfiguration)
    (pre post : List OrphanDetector.SubscriptionScan)
    (a : OrphanDetector.SubscriptionScan) (e : String)
    (h : a.outcome = Except.error e) :
    (OrphanDetector.scan_subscriptions config (pre ++ a :: post)).errors =
      (OrphanDetector.scan_subscriptions config pre).errors ++
        ("Subscription " ++ a.subscription_id ++ ": " ++ e) ::
          (OrphanDetector.scan_subscriptions config post).errors
    ∧ (OrphanDetector.scan_subscriptions config (pre ++ a :: post)).orphaned_resources =
      (OrphanDetector.scan_subscriptions config pre).orphaned_resources ++
        (OrphanDetector.scan_subscriptions config post).orphaned_resources := by
  unfold OrphanDetector.scan_subscriptions
  constructor <;>
    simp [OrphanDetector.scan_subscription_task, h]

/-- C1 witness: `candidate_a` appears in a concrete finished scan and its
backup risk level is not critical. -/
theorem scan_candidates_never_critical_backup_witness :
    candidate_a ∈
      (OrphanDetector.scan_subscriptions example_configuration [sub_a]).orphaned_resources
    ∧ candidate_a.backup_analysis.risk_level ≠ "critical" :=
  have hmem : candidate_a ∈
      (OrphanDetector.scan_subscriptions example_configuration [sub_a]).orphaned_resources := by
    show candidate_a ∈ (OrphanDetector.scan_subscription_task example_configuration sub_a).2 ++ []
    rw [scan_task_eval_a]
    simp
  ⟨hmem, scan_candidates_never_critical_backup example_configuration [sub_a] candidate_a hmem⟩

/-- C6 witness: `candidate_a` is produced by the combined analyzers on a
concrete input and satisfies the confidence and priority bounds. -/
theorem analyzer_candidate_bounds_witness :
    candidate_a ∈
      DiskAnalyzer.analyze example_configuration "sub-aaaa" [disk_a] []
        ++ PublicIPAnalyzer.analyze example_configuration "sub-aaaa" []
        ++ StorageAccountAnalyzer.analyze example_configuration "sub-aaaa" []
    ∧ (0 ≤ candidate_a.confidence_score ∧ candidate_a.confidence_score ≤ 1
        ∧ 1 ≤ candidate_a.cleanup_priority ∧ candidate_a.cleanup_priority ≤ 10) :=
  have hmem : candidate_a ∈
      DiskAnalyzer.analyze example_configuration "sub-aaaa" [disk_a] []
        ++ PublicIPAnalyzer.analyze example_configuration "sub-aaaa" []
        ++ StorageAccountAnalyzer.analyze example_configuration "sub-aaaa" [] := by
    simp [disk_analyze_eval_a, PublicIPAnalyzer.analyze, StorageAccountAnalyzer.analyze]
  ⟨hmem, analyzer_candidate_bounds example_configuration "sub-aaaa" [disk_a] [] [] []
    candidate_a hmem⟩

/-- C10 witness: `candidate_a` is produced by the disk analyzer on a
concrete input, carries the inactive usage signal, and that signal does
not show recent activity above score 0.3. -/
theorem disk_candidates_not_recently_active_witness :
    candidate_a ∈ DiskAnalyzer.analyze example_configuration "sub-aaaa" [disk_a] []
    ∧ candidate_a.metrics.usage_analysis = some idle_usage
    ∧ ¬(idle_usage.has_recent_activity = true ∧ idle_usage.activity_score > 3/10) :=
  have hmem : candidate_a ∈
      DiskAnalyzer.analyze example_configuration "sub-aaaa" [disk_a] [] := by
    rw [disk_analyze_eval_a]
    simp
  have hu : candidate_a.metrics.usage_analysis = some idle_usage := rfl
  ⟨hmem, hu, disk_candidates_not_recently_active example_configuration "sub-aaaa" [disk_a] []
    candidate_a idle_usage hmem hu⟩

/-- C8 witness: in a concrete scan of a failing subscription followed by a
healthy one, the failing subscription contributes exactly one error entry
and no candidates. -/
theorem scan_isolates_failing_subscription_witness :
    sub_broken.outcome = Except.error "boom"
    ∧ ((OrphanDetector.scan_subscriptions example_configuration
          ([] ++ sub_broken :: [sub_a])).errors =
        (OrphanDetector.scan_subscriptions example_configuration []).errors ++
          ("Subscription " ++ sub_broken.subscription_id ++ ": " ++ "boom") ::
            (OrphanDetector.scan_subscriptions example_configuration [sub_a]).errors
      ∧ (OrphanDetector.scan_subscriptions example_configuration
          ([] ++ sub_broken :: [sub_a])).orphaned_resources =
        (OrphanDetector.scan_subscriptions example_configuration []).orphaned_resources ++
          (OrphanDetector.scan_subscriptions example_configuration [sub_a]).orphaned_resources) :=
  ⟨rfl, scan_isolates_failing_subscription example_configuration [] [sub_a] sub_broken "boom" rfl⟩
